import Mathlib

/-!
Shallow embedding of the podcast publishing web application: form
handling and file validation (CreatePodcast.tsx, CreateEpisode.tsx),
the favorite and subscribe toggles (EpisodePlayer.tsx,
PodcastDetail.tsx), deletions (Dashboard.tsx, PodcastEpisodes.tsx),
storage-bucket preparation, and the route guarding of App.tsx.

The managed data store is modelled explicitly: join tables are finite
sets of id pairs (their uniqueness constraints make the set model
exact), the podcasts and episodes tables are row lists, and each
store call carries an explicit failure flag standing for the
row-set-or-error result that the source may or may not inspect.
-/

namespace Podcast

/-- Embeds JavaScript `String.prototype.startsWith` on the character
lists of the two strings (structurally recursive so it evaluates in
the kernel). -/
def strStartsWith : List Char → List Char → Bool
  | _, [] => true
  | [], _ :: _ => false
  | c :: s, d :: ps => c == d && strStartsWith s ps

/-- A browser `File` object as the upload handlers see it: name, mime
type and byte size. -/
structure FileBlob where
  name : String
  mime : String
  size : Nat
deriving DecidableEq, Repr

/-- The `file.type.startsWith(p)` check used by both upload handlers. -/
def mimeStartsWith (f : FileBlob) (p : String) : Bool :=
  strStartsWith f.mime.toList p.toList

/-- Form state relevant to `handleAudioChange` in CreateEpisode.tsx:
the currently accepted audio file and the inline error message. -/
structure EpisodeFormState where
  audioFile : Option FileBlob
  errorMsg : Option String
deriving DecidableEq, Repr

/-- Initial CreateEpisode form state: both `useState` hooks start at
null. -/
def initEpisodeForm : EpisodeFormState :=
  { audioFile := none, errorMsg := none }

/-- `handleAudioChange` (CreateEpisode.tsx, lines 101-119): an empty
selection is ignored; a non-audio mime type or a file over 100MB sets
an error and leaves the accepted file unchanged; otherwise the file is
stored and the error cleared. -/
def handleAudioChange (f : Option FileBlob) (st : EpisodeFormState) : EpisodeFormState :=
  match f with
  | none => st
  | some file =>
    if ¬ mimeStartsWith file "audio/" then
      { st with errorMsg := some "Please upload an audio file" }
    else if file.size > 100 * 1024 * 1024 then
      { st with errorMsg := some "Audio file size should be less than 100MB" }
    else
      { audioFile := some file, errorMsg := none }

/-- `getAudioDuration` (CreateEpisode.tsx, lines 196-216): when the
transient audio element reports a duration, the result is
`Math.round` of it; when metadata extraction fails (the onerror
branch), the fallback is `Math.round(sizeInMB * 60)` with
`sizeInMB = size / (1024 * 1024)`. JavaScript `Math.round x` is
`⌊x + 1/2⌋`, which is `round` on ℚ. -/
def getAudioDuration (metaDuration : Option ℚ) (file : FileBlob) : ℤ :=
  match metaDuration with
  | some dur => round dur
  | none => round ((file.size : ℚ) / (1024 * 1024) * 60)

/-- A row of the podcasts table (the fields the embedded logic reads). -/
structure PodcastRow where
  id : String
  author_id : String
  title : String
deriving DecidableEq, Repr

/-- The episode record inserted by CreateEpisode `onSubmit`
(CreateEpisode.tsx, lines 165-176). -/
structure EpisodeInsert where
  podcast_id : String
  title : String
  description : String
  audio_url : String
  duration : ℤ
  published_at : String
deriving DecidableEq, Repr

/-- `onSubmit` of CreateEpisode (lines 121-194), restricted to the
record it inserts: it proceeds only when a user, the loaded podcast
and an accepted audio file are all present; a failed upload throws
before the insert; otherwise the inserted row carries the computed
duration. -/
def createEpisodeSubmit (user : Option String) (podcast : Option PodcastRow)
    (audioFile : Option FileBlob) (metaDuration : Option ℚ) (uploadFail : Bool)
    (title description publicUrl publishedAt : String) : Option EpisodeInsert :=
  match user, podcast, audioFile with
  | some _, some pod, some file =>
    if uploadFail then none
    else some { podcast_id := pod.id, title := title, description := description,
                audio_url := publicUrl, duration := getAudioDuration metaDuration file,
                published_at := publishedAt }
  | _, _, _ => none

/-- Form state relevant to `handleImageChange` in CreatePodcast.tsx. -/
structure PodcastFormState where
  coverImage : Option FileBlob
  coverImagePreview : Option String
  errorMsg : Option String
deriving DecidableEq, Repr

/-- `handleImageChange` (CreatePodcast.tsx, lines 79-98): an empty
selection is ignored; a non-image mime type or a file over 5MB sets an
error; otherwise the file is stored with a preview object URL. -/
def handleImageChange (f : Option FileBlob) (st : PodcastFormState) : PodcastFormState :=
  match f with
  | none => st
  | some file =>
    if ¬ mimeStartsWith file "image/" then
      { st with errorMsg := some "Please upload an image file" }
    else if file.size > 5 * 1024 * 1024 then
      { st with errorMsg := some "Image size should be less than 5MB" }
    else
      { coverImage := some file, coverImagePreview := some ("blob:" ++ file.name),
        errorMsg := none }

/-- The podcast record inserted by CreatePodcast `onSubmit`
(CreatePodcast.tsx, lines 149-158). -/
structure PodcastInsert where
  title : String
  description : String
  cover_image_url : Option String
  author_id : String
deriving DecidableEq, Repr

/-- Observable outcome of a CreatePodcast submission: the storage
uploads issued (bucket names), the inserted row if any, and the
surfaced error message. -/
structure CreatePodcastResult where
  uploads : List String
  inserted : Option PodcastInsert
  errorMsg : Option String
deriving DecidableEq, Repr

/-- `onSubmit` of CreatePodcast (lines 100-175): an absent user
returns at once; with a selected cover image the upload runs only when
`bucketReady` holds (otherwise an error is thrown before any upload);
without a cover image no upload happens and the inserted row has a
null `cover_image_url`. -/
def createPodcastSubmit (user : Option String) (coverImage : Option FileBlob)
    (bucketReady uploadFail insertFail : Bool)
    (title description publicUrl : String) : CreatePodcastResult :=
  match user with
  | none => { uploads := [], inserted := none, errorMsg := none }
  | some uid =>
    match coverImage with
    | some _ =>
      if ¬ bucketReady then
        { uploads := [], inserted := none,
          errorMsg := some "Storage is not ready. Please ensure the podcast-covers bucket exists in Supabase." }
      else if uploadFail then
        { uploads := ["podcast-covers"], inserted := none,
          errorMsg := some "Image upload failed" }
      else if insertFail then
        { uploads := ["podcast-covers"], inserted := none,
          errorMsg := some "Failed to create podcast" }
      else
        { uploads := ["podcast-covers"],
          inserted := some { title := title, description := description,
                             cover_image_url := some publicUrl, author_id := uid },
          errorMsg := none }
    | none =>
      if insertFail then
        { uploads := [], inserted := none, errorMsg := some "Failed to create podcast" }
      else
        { uploads := [],
          inserted := some { title := title, description := description,
                             cover_image_url := none, author_id := uid },
          errorMsg := none }

/-- `createStorageBucket` (CreateEpisode.tsx, lines 76-98): list the
buckets; when `podcast-audio` is absent, create it (a creation error
is only logged). Returns the resulting bucket list. -/
def createStorageBucket (createFail : Bool) (buckets : List String) : List String :=
  if "podcast-audio" ∈ buckets then buckets
  else if createFail then buckets
  else buckets ++ ["podcast-audio"]

/-- `checkBucketExists` (CreatePodcast.tsx, lines 44-77): list the
buckets and report `bucketReady` when `podcast-covers` is present;
when it is absent, set an error telling the user to contact the
administrator. It never creates a bucket. Returns the unchanged
bucket list, the `bucketReady` flag and the error message. -/
def checkBucketExists (listFail : Bool) (buckets : List String) :
    List String × Bool × Option String :=
  if listFail then (buckets, false, some "Error checking storage buckets")
  else if "podcast-covers" ∈ buckets then (buckets, true, none)
  else (buckets, false,
        some "Storage bucket podcast-covers not found. Please contact the administrator to set up storage.")

/-- A store call issued by a relationship toggle: the table and the
(user id, other id) key of the affected join row. -/
inductive StoreCall
  | deleteRow (table : String) (key : String × String)
  | insertRow (table : String) (row : String × String)
deriving DecidableEq, Repr

/-- State seen by `handleFavorite`: the favorites join table (a set
of (user id, episode id) pairs, exact because of the UNIQUE(user_id,
episode_id) constraint) and the local `isFavorite` flag. -/
structure PlayerFavState where
  favorites : Finset (String × String)
  isFavorite : Bool

/-- `handleFavorite` (EpisodePlayer.tsx, lines 174-201): early return
when no user or no episode is loaded. When `isFavorite`, a delete of
the (user, episode) row is issued and the flag is then set false;
otherwise an insert is issued and the flag is set true. The returned
error is never inspected and the awaited builder does not throw on a
store error, so the flag update runs whether or not the call failed;
a failed call leaves the table unchanged (and an insert of an already
present pair is rejected by the unique constraint, which the set
model absorbs). -/
def handleFavorite (user episode : Option String) (storeFail : Bool)
    (st : PlayerFavState) : PlayerFavState × Option StoreCall :=
  match user, episode with
  | some u, some e =>
    if st.isFavorite then
      ({ favorites := if storeFail then st.favorites else st.favorites.erase (u, e),
         isFavorite := false }, some (.deleteRow "favorites" (u, e)))
    else
      ({ favorites := if storeFail then st.favorites else insert (u, e) st.favorites,
         isFavorite := true }, some (.insertRow "favorites" (u, e)))
  | _, _ => (st, none)

/-- State seen by `handleSubscribe`: the subscriptions join table (a
set of (user id, podcast id) pairs) and the local `isSubscribed`
flag. -/
structure DetailSubState where
  subscriptions : Finset (String × String)
  isSubscribed : Bool

/-- `handleSubscribe` (PodcastDetail.tsx, lines 69-99): early return
when no user. When `isSubscribed`, a delete of the (user, podcast)
row is issued and the flag is set false; otherwise an insert is
issued and the flag is set true; the error is never inspected. -/
def handleSubscribe (user podcastId : Option String) (storeFail : Bool)
    (st : DetailSubState) : DetailSubState × Option StoreCall :=
  match user, podcastId with
  | some u, some pid =>
    if st.isSubscribed then
      ({ subscriptions := if storeFail then st.subscriptions else st.subscriptions.erase (u, pid),
         isSubscribed := false }, some (.deleteRow "subscriptions" (u, pid)))
    else
      ({ subscriptions := if storeFail then st.subscriptions else insert (u, pid) st.subscriptions,
         isSubscribed := true }, some (.insertRow "subscriptions" (u, pid)))
  | _, _ => (st, none)

/-- The pages routed by `AppRoutes` (App.tsx). -/
inductive Page
  | home | login | signup | podcastDetail | episodePlayer
  | dashboard | createPodcast | podcastEpisodes | createEpisode
  | subscriptions | favorites
deriving DecidableEq, Repr

/-- A path-pattern segment: a literal or a `:param` placeholder. -/
inductive Seg
  | lit (s : String)
  | param
deriving DecidableEq, Repr

/-- Segment-wise pattern match of a route pattern against a request
path (paths are modelled as their slash-separated segment lists). -/
def segMatch : List Seg → List String → Bool
  | [], [] => true
  | .lit s :: ps, t :: ts => s == t && segMatch ps ts
  | .param :: ps, _ :: ts => segMatch ps ts
  | _, _ => false

/-- The route table of `AppRoutes` (App.tsx): pattern, page, and
whether the route is wrapped in `ProtectedRoute`. -/
def routes : List (List Seg × Page × Bool) :=
  [ ([], .home, false),
    ([.lit "login"], .login, false),
    ([.lit "signup"], .signup, false),
    ([.lit "podcasts", .param], .podcastDetail, false),
    ([.lit "episodes", .param], .episodePlayer, false),
    ([.lit "dashboard"], .dashboard, true),
    ([.lit "dashboard", .lit "podcasts", .lit "new"], .createPodcast, true),
    ([.lit "dashboard", .lit "podcasts", .param, .lit "episodes"], .podcastEpisodes, true),
    ([.lit "dashboard", .lit "podcasts", .param, .lit "episodes", .lit "new"], .createEpisode, true),
    ([.lit "subscriptions"], .subscriptions, true),
    ([.lit "favorites"], .favorites, true) ]

/-- Route resolution: the first matching route of the table; `none`
stands for the catch-all route, which navigates home. -/
def routeFor (path : List String) : Option (Page × Bool) :=
  (routes.find? (fun r => segMatch r.1 path)).map (fun r => r.2)

/-- What a render step produces: a navigation, the loading screen, or
a mounted page together with the store tables its mount effect
fetches. -/
inductive Rendered
  | redirect (target : String)
  | loadingView
  | page (p : Page) (fetches : List String)
deriving DecidableEq, Repr

/-- The store tables each page's mount effect reads, by presence of a
user (Home, PodcastDetail, EpisodePlayer, Dashboard.tsx lines 16-45,
PodcastEpisodes, CreateEpisode, Subscriptions, Favorites.tsx lines
15-50). -/
def mountFetches : Page → Option String → List String
  | .home, _ => ["podcasts"]
  | .login, _ => []
  | .signup, _ => []
  | .podcastDetail, none => ["podcasts", "episodes"]
  | .podcastDetail, some _ => ["podcasts", "episodes", "subscriptions"]
  | .episodePlayer, none => ["episodes", "podcasts"]
  | .episodePlayer, some _ => ["episodes", "podcasts", "favorites"]
  | .dashboard, _ => ["podcasts"]
  | .createPodcast, _ => []
  | .podcastEpisodes, _ => ["podcasts", "episodes"]
  | .createEpisode, _ => ["podcasts"]
  | .subscriptions, _ => ["subscriptions"]
  | .favorites, _ => ["favorites"]

/-- A page render including the mount effect of the page itself: the
dashboard pages, Subscriptions and Favorites navigate to /login from
their own effect when no user is present, before any fetch. -/
def renderPage (p : Page) (user : Option String) : Rendered :=
  match p, user with
  | .dashboard, none => .redirect "/login"
  | .createPodcast, none => .redirect "/login"
  | .podcastEpisodes, none => .redirect "/login"
  | .createEpisode, none => .redirect "/login"
  | .subscriptions, none => .redirect "/login"
  | .favorites, none => .redirect "/login"
  | _, _ => .page p (mountFetches p user)

/-- `ProtectedRoute` (App.tsx, lines 46-58): while the session loads
it renders the loading screen; with no user it navigates to /login;
otherwise it renders its child. -/
def ProtectedRoute (loading : Bool) (user : Option String) (child : Rendered) : Rendered :=
  if loading then .loadingView
  else if user.isNone then .redirect "/login"
  else child

/-- One render of `AppRoutes` at a path: resolve the route, wrap
protected pages in `ProtectedRoute`; the catch-all navigates home. -/
def appRender (path : List String) (loading : Bool) (user : Option String) : Rendered :=
  if loading then .loadingView
  else
    match routeFor path with
    | none => .redirect "/"
    | some (p, true) => ProtectedRoute loading user (renderPage p user)
    | some (p, false) => renderPage p user

/-- The fetches observable from a render result: a redirect or the
loading screen issues none. -/
def fetchesOf : Rendered → List String
  | .page _ fs => fs
  | _ => []

/-- Observable effects of a delete handler, in order. -/
inductive Effect
  | storeDelete (table : String) (id : String)
  | localRemove (id : String)
  | alertShown (msg : String)
deriving DecidableEq, Repr

/-- `handleDeletePodcast` (Dashboard.tsx, lines 47-69): a declined
confirm does nothing; otherwise the store delete runs first; on a
store error the local list is untouched and an alert is shown; on
success the local list is filtered afterwards. Returns the store
table, the local list and the effect trace. -/
def handleDeletePodcast (confirmed storeFail : Bool) (pid : String)
    (store loc : List PodcastRow) :
    List PodcastRow × List PodcastRow × List Effect :=
  if ¬ confirmed then (store, loc, [])
  else if storeFail then
    (store, loc, [.storeDelete "podcasts" pid, .alertShown "Failed to delete podcast"])
  else
    (store.filter (fun r => r.id != pid), loc.filter (fun r => r.id != pid),
     [.storeDelete "podcasts" pid, .localRemove pid])

/-- A row of the episodes table (the fields the delete handler
reads). -/
structure EpisodeRow where
  id : String
  podcast_id : String
deriving DecidableEq, Repr

/-- `handleDeleteEpisode` (PodcastEpisodes.tsx, lines 66-88):
identical shape to the podcast delete, against the episodes table. -/
def handleDeleteEpisode (confirmed storeFail : Bool) (eid : String)
    (store loc : List EpisodeRow) :
    List EpisodeRow × List EpisodeRow × List Effect :=
  if ¬ confirmed then (store, loc, [])
  else if storeFail then
    (store, loc, [.storeDelete "episodes" eid, .alertShown "Failed to delete episode"])
  else
    (store.filter (fun r => r.id != eid), loc.filter (fun r => r.id != eid),
     [.storeDelete "episodes" eid, .localRemove eid])

/-! ## Theorems -/

/-- Helper: the computed duration is nonnegative whenever the
reported metadata duration (if any) is nonnegative. -/
theorem getAudioDuration_nonneg (meta : Option ℚ) (f : FileBlob)
    (h : ∀ q, meta = some q → 0 ≤ q) : 0 ≤ getAudioDuration meta f := by
  cases meta with
  | none =>
    simp only [getAudioDuration]
    rw [round_eq]
    apply Int.floor_nonneg.mpr
    positivity
  | some q =>
    have hq := h q rfl
    simp only [getAudioDuration]
    rw [round_eq]
    apply Int.floor_nonneg.mpr
    linarith

/-- C7: the stored episode duration is the rounding of the duration
reported by the transient decoding element, and on metadata failure
it is the rounding of `size / (1024*1024) * 60`, about 60 seconds per
megabyte. -/
theorem getAudioDuration_cases (dur : ℚ) (f : FileBlob) :
    getAudioDuration (some dur) f = round dur
    ∧ getAudioDuration none f = round ((f.size : ℚ) / (1024 * 1024) * 60) :=
  ⟨rfl, rfl⟩

/-- C3: with the session resolved and no user present, rendering
/dashboard, /favorites or /subscriptions redirects to /login, and the
redirect result carries no data-store fetch. -/
theorem unauthenticated_protected_routes_redirect :
    appRender ["dashboard"] false none = Rendered.redirect "/login"
    ∧ appRender ["favorites"] false none = Rendered.redirect "/login"
    ∧ appRender ["subscriptions"] false none = Rendered.redirect "/login"
    ∧ fetchesOf (appRender ["dashboard"] false none) = []
    ∧ fetchesOf (appRender ["favorites"] false none) = []
    ∧ fetchesOf (appRender ["subscriptions"] false none) = [] := by
  refine ⟨?_, ?_, ?_, ?_, ?_, ?_⟩ <;> decide

/-- C4: with a user and a loaded episode, the favorite toggle issues
a delete of the (user, episode) join row when the local flag is true
and an insert of it when false; the local flag is flipped after the
call resolves whether or not the store call failed, and a failed call
leaves the join table unchanged. -/
theorem handleFavorite_delete_insert_flip (u e : String) (storeFail : Bool)
    (st : PlayerFavState) :
    (handleFavorite (some u) (some e) storeFail st).2
      = some (if st.isFavorite then StoreCall.deleteRow "favorites" (u, e)
              else StoreCall.insertRow "favorites" (u, e))
    ∧ (handleFavorite (some u) (some e) storeFail st).1.isFavorite = !st.isFavorite
    ∧ (handleFavorite (some u) (some e) storeFail st).1.favorites
      = (if storeFail then st.favorites
         else if st.isFavorite then st.favorites.erase (u, e)
         else insert (u, e) st.favorites) := by
  cases h : st.isFavorite <;> simp [handleFavorite, h]

/-- C6: for podcast and episode deletions alike, the store delete is
issued first and the local list is filtered only afterwards; when the
store delete fails, the local list (and the store) are unchanged and
a browser alert is shown. -/
theorem delete_store_then_local_failure_alert (pid eid : String)
    (pstore ploc : List PodcastRow) (estore eloc : List EpisodeRow) :
    (handleDeletePodcast true false pid pstore ploc).2.2
        = [Effect.storeDelete "podcasts" pid, Effect.localRemove pid]
    ∧ (handleDeletePodcast true false pid pstore ploc).2.1
        = ploc.filter (fun r => r.id != pid)
    ∧ (handleDeletePodcast true true pid pstore ploc).2.1 = ploc
    ∧ (handleDeletePodcast true true pid pstore ploc).1 = pstore
    ∧ (handleDeletePodcast true true pid pstore ploc).2.2
        = [Effect.storeDelete "podcasts" pid, Effect.alertShown "Failed to delete podcast"]
    ∧ (handleDeleteEpisode true false eid estore eloc).2.2
        = [Effect.storeDelete "episodes" eid, Effect.localRemove eid]
    ∧ (handleDeleteEpisode true false eid estore eloc).2.1
        = eloc.filter (fun r => r.id != eid)
    ∧ (handleDeleteEpisode true true eid estore eloc).2.1 = eloc
    ∧ (handleDeleteEpisode true true eid estore eloc).2.2
        = [Effect.storeDelete "episodes" eid, Effect.alertShown "Failed to delete episode"] := by
  simp [handleDeletePodcast, handleDeleteEpisode]

/-- C10: a create-podcast submission with no cover image selected
issues no storage upload and, when the insert succeeds, inserts a row
with a null cover_image_url regardless of bucket readiness; and
`handleImageChange` leaves the form state untouched when no file is
chosen, so the image validation applies only to a chosen file. -/
theorem createPodcast_without_cover (uid t d url : String)
    (bucketReady uploadFail : Bool) (st : PodcastFormState) :
    (createPodcastSubmit (some uid) none bucketReady uploadFail false t d url).uploads = []
    ∧ (createPodcastSubmit (some uid) none bucketReady uploadFail false t d url).inserted
        = some { title := t, description := d, cover_image_url := none, author_id := uid }
    ∧ (createPodcastSubmit (some uid) none bucketReady uploadFail false t d url).errorMsg = none
    ∧ handleImageChange none st = st := by
  simp [createPodcastSubmit, handleImageChange]

/-- C1, counterexample: a 1024-byte file of mime type audio/mpeg is
accepted by `handleAudioChange`, and a submission built from it whose
metadata extraction fails inserts an episode record with duration 0,
which is not positive. -/
theorem tiny_audio_zero_duration_counterexample :
    (handleAudioChange (some ⟨"tiny.mp3", "audio/mpeg", 1024⟩) initEpisodeForm).audioFile
        = some ⟨"tiny.mp3", "audio/mpeg", 1024⟩
    ∧ createEpisodeSubmit (some "u1") (some ⟨"p1", "u1", "Show"⟩)
        (some ⟨"tiny.mp3", "audio/mpeg", 1024⟩) none false
        "Ep" "About this episode" "https://x/a.mp3" "2026-01-01"
        = some { podcast_id := "p1", title := "Ep", description := "About this episode",
                 audio_url := "https://x/a.mp3", duration := 0, published_at := "2026-01-01" }
    ∧ ¬ ((0 : ℤ) < 0) := by
  refine ⟨by decide, ?_, by decide⟩
  norm_num [createEpisodeSubmit, getAudioDuration, round_eq]

/-- C1, amended: every audio file accepted by `handleAudioChange`
(starting from a state whose accepted file, if any, already passed
validation) has mime type starting with audio/ and size at most
100*1024*1024 bytes, and the duration inserted into the episode
record is nonnegative whenever the reported metadata duration is (it
can be zero, so it need not be positive). -/
theorem audio_accept_valid_and_duration_nonneg
    (st : EpisodeFormState) (f g : FileBlob)
    (user : Option String) (podcast : Option PodcastRow) (meta : Option ℚ)
    (uploadFail : Bool) (t d url pub : String) (row : EpisodeInsert)
    (hinv : ∀ g0, st.audioFile = some g0 →
        mimeStartsWith g0 "audio/" = true ∧ g0.size ≤ 100 * 1024 * 1024)
    (hacc : (handleAudioChange (some f) st).audioFile = some g)
    (hmeta : ∀ q, meta = some q → 0 ≤ q)
    (hrow : createEpisodeSubmit user podcast (some g) meta uploadFail t d url pub = some row) :
    mimeStartsWith g "audio/" = true ∧ g.size ≤ 100 * 1024 * 1024 ∧ 0 ≤ row.duration := by
  have hval : mimeStartsWith g "audio/" = true ∧ g.size ≤ 100 * 1024 * 1024 := by
    by_cases hm : mimeStartsWith f "audio/" = true
    · by_cases hs : f.size > 100 * 1024 * 1024
      · have hst : st.audioFile = some g := by
          simpa [handleAudioChange, hm, hs] using hacc
        exact hinv g hst
      · have hfg : f = g := by
          simpa [handleAudioChange, hm, hs] using hacc
        subst hfg
        exact ⟨hm, le_of_not_lt hs⟩
    · have hst : st.audioFile = some g := by
        simpa [handleAudioChange, hm] using hacc
      exact hinv g hst
  refine ⟨hval.1, hval.2, ?_⟩
  cases user with
  | none => simp [createEpisodeSubmit] at hrow
  | some uid =>
    cases podcast with
    | none => simp [createEpisodeSubmit] at hrow
    | some pod =>
      cases uploadFail with
      | true => simp [createEpisodeSubmit] at hrow
      | false =>
        have hr : row = { podcast_id := pod.id, title := t, description := d,
                          audio_url := url, duration := getAudioDuration meta g,
                          published_at := pub } := by
          have := hrow.symm
          simpa [createEpisodeSubmit] using this
        rw [hr]
        exact getAudioDuration_nonneg meta g hmeta

/-- Witness for the amended C1 at a concrete accepted file and
submission. -/
theorem audio_accept_valid_and_duration_nonneg_witness :
    mimeStartsWith ⟨"a.mp3", "audio/mpeg", 2048⟩ "audio/" = true
    ∧ (2048 : Nat) ≤ 100 * 1024 * 1024
    ∧ (0 : ℤ) ≤
        ({ podcast_id := "p1", title := "Ep", description := "About this episode",
           audio_url := "https://x/a.mp3", duration := 0,
           published_at := "2026-01-01" } : EpisodeInsert).duration :=
  audio_accept_valid_and_duration_nonneg initEpisodeForm
    ⟨"a.mp3", "audio/mpeg", 2048⟩ ⟨"a.mp3", "audio/mpeg", 2048⟩
    (some "u1") (some ⟨"p1", "u1", "Show"⟩) none false
    "Ep" "About this episode" "https://x/a.mp3" "2026-01-01"
    { podcast_id := "p1", title := "Ep", description := "About this episode",
      audio_url := "https://x/a.mp3", duration := 0, published_at := "2026-01-01" }
    (by intro g0 h0; simp [initEpisodeForm] at h0)
    (by decide)
    (by intro q hq; simp at hq)
    (by norm_num [createEpisodeSubmit, getAudioDuration, round_eq])

/-- C2, counterexample: from the state whose favorites table already
holds the ("u1", "e1") row while the local flag is false (reachable
after a silently failed insert), toggling twice does not return the
join table to its original state: the row is gone afterwards. -/
theorem favorite_double_toggle_counterexample :
    ("u1", "e1") ∈ ({("u1", "e1")} : Finset (String × String))
    ∧ ("u1", "e1") ∉ (handleFavorite (some "u1") (some "e1") false
        (handleFavorite (some "u1") (some "e1") false
          ⟨{("u1", "e1")}, false⟩).1).1.favorites := by
  constructor
  · simp
  · simp [handleFavorite]

/-- C2, amended: from any starting state in which the local flag
agrees with the presence of the join row, toggling favorite twice
(resp. subscribe twice) returns the join table and the flag to their
original state; and starting unfavorited, favorite then unfavorite
always leaves no (user, episode) row in the favorites table. -/
theorem toggle_twice_round_trip (u e pid : String)
    (st st2 : PlayerFavState) (ss : DetailSubState)
    (hf : st.isFavorite = true ↔ (u, e) ∈ st.favorites)
    (hs : ss.isSubscribed = true ↔ (u, pid) ∈ ss.subscriptions)
    (h2 : st2.isFavorite = false) :
    (handleFavorite (some u) (some e) false
        (handleFavorite (some u) (some e) false st).1).1 = st
    ∧ (handleSubscribe (some u) (some pid) false
        (handleSubscribe (some u) (some pid) false ss).1).1 = ss
    ∧ (u, e) ∉ (handleFavorite (some u) (some e) false
        (handleFavorite (some u) (some e) false st2).1).1.favorites := by
  refine ⟨?_, ?_, ?_⟩
  · cases st with
    | mk favs flag =>
      cases flag
      · have hmem : (u, e) ∉ favs := fun hm => by simpa using hf.mpr hm
        simp [handleFavorite, Finset.erase_insert hmem]
      · have hmem : (u, e) ∈ favs := hf.mp rfl
        simp [handleFavorite, Finset.insert_erase hmem]
  · cases ss with
    | mk subs sflag =>
      cases sflag
      · have hmem : (u, pid) ∉ subs := fun hm => by simpa using hs.mpr hm
        simp [handleSubscribe, Finset.erase_insert hmem]
      · have hmem : (u, pid) ∈ subs := hs.mp rfl
        simp [handleSubscribe, Finset.insert_erase hmem]
  · cases st2 with
    | mk favs flag =>
      cases flag
      · simp [handleFavorite]
      · simp at h2

/-- Witness for the amended C2 at the empty consistent state. -/
theorem toggle_twice_round_trip_witness :
    (handleFavorite (some "u1") (some "e1") false
        (handleFavorite (some "u1") (some "e1") false ⟨∅, false⟩).1).1
      = (⟨∅, false⟩ : PlayerFavState)
    ∧ (handleSubscribe (some "u1") (some "p1") false
        (handleSubscribe (some "u1") (some "p1") false ⟨∅, false⟩).1).1
      = (⟨∅, false⟩ : DetailSubState)
    ∧ ("u1", "e1") ∉ (handleFavorite (some "u1") (some "e1") false
        (handleFavorite (some "u1") (some "e1") false ⟨∅, false⟩).1).1.favorites :=
  toggle_twice_round_trip "u1" "e1" "p1" ⟨∅, false⟩ ⟨∅, false⟩ ⟨∅, false⟩
    (by simp) (by simp) rfl

/-- C5: a confirmed, successful podcast deletion by the owning author
removes exactly the rows with the given id from the store and from
the dashboard list, and any podcast of a different author survives
unchanged. -/
theorem deletePodcast_exact_and_frame (pid author : String)
    (store loc : List PodcastRow) (q : PodcastRow)
    (hown : ∀ r ∈ store, r.id = pid → r.author_id = author)
    (hq : q ∈ store) (hqa : q.author_id ≠ author) :
    (handleDeletePodcast true false pid store loc).1
        = store.filter (fun r => r.id != pid)
    ∧ (handleDeletePodcast true false pid store loc).2.1
        = loc.filter (fun r => r.id != pid)
    ∧ q ∈ (handleDeletePodcast true false pid store loc).1 := by
  refine ⟨by simp [handleDeletePodcast], by simp [handleDeletePodcast], ?_⟩
  have hid : q.id ≠ pid := fun h => hqa (hown q hq h)
  simp [handleDeletePodcast, List.mem_filter, hq, hid]

/-- Witness for C5 at a two-row store. -/
theorem deletePodcast_exact_and_frame_witness :
    (handleDeletePodcast true false "p1"
        [⟨"p1", "a1", "S1"⟩, ⟨"p2", "a2", "S2"⟩] [⟨"p1", "a1", "S1"⟩]).1
      = [(⟨"p1", "a1", "S1"⟩ : PodcastRow), ⟨"p2", "a2", "S2"⟩].filter (fun r => r.id != "p1")
    ∧ (handleDeletePodcast true false "p1"
        [⟨"p1", "a1", "S1"⟩, ⟨"p2", "a2", "S2"⟩] [⟨"p1", "a1", "S1"⟩]).2.1
      = [(⟨"p1", "a1", "S1"⟩ : PodcastRow)].filter (fun r => r.id != "p1")
    ∧ (⟨"p2", "a2", "S2"⟩ : PodcastRow) ∈ (handleDeletePodcast true false "p1"
        [⟨"p1", "a1", "S1"⟩, ⟨"p2", "a2", "S2"⟩] [⟨"p1", "a1", "S1"⟩]).1 :=
  deletePodcast_exact_and_frame "p1" "a1"
    [⟨"p1", "a1", "S1"⟩, ⟨"p2", "a2", "S2"⟩] [⟨"p1", "a1", "S1"⟩] ⟨"p2", "a2", "S2"⟩
    (by decide) (by decide) (by decide)

/-- C8, counterexample: with no buckets present, the create-podcast
bucket step leaves the bucket list empty — the podcast-covers bucket
is not created — and reports the storage as not ready. -/
theorem podcast_covers_not_created_counterexample :
    (checkBucketExists false []).1 = []
    ∧ (checkBucketExists false []).2.1 = false
    ∧ "podcast-covers" ∉ (checkBucketExists false []).1 := by
  refine ⟨by decide, by decide, by decide⟩

/-- C8, amended: the create-episode flow creates the podcast-audio
bucket idempotently when it is missing (when the creation call
succeeds), while the create-podcast flow never creates a bucket: its
check leaves the bucket list unchanged and reports ready only when
podcast-covers already exists, and with the bucket not ready a
submission with a selected cover image uploads nothing and inserts
nothing — so any upload it performs targets a pre-existing bucket. -/
theorem bucket_flows_amended (buckets bucketsB bucketsC : List String) (lf : Bool)
    (uid : String) (img : FileBlob) (uploadFail insertFail : Bool) (t d url : String)
    (hB : "podcast-audio" ∈ bucketsB)
    (hC : (checkBucketExists lf bucketsC).2.1 = true) :
    "podcast-audio" ∈ createStorageBucket false buckets
    ∧ createStorageBucket false bucketsB = bucketsB
    ∧ (checkBucketExists lf buckets).1 = buckets
    ∧ "podcast-covers" ∈ bucketsC
    ∧ (createPodcastSubmit (some uid) (some img) false uploadFail insertFail t d url).uploads = []
    ∧ (createPodcastSubmit (some uid) (some img) false uploadFail insertFail t d url).inserted
        = none := by
  refine ⟨?_, ?_, ?_, ?_, ?_, ?_⟩
  · by_cases h : "podcast-audio" ∈ buckets <;> simp [createStorageBucket, h]
  · simp [createStorageBucket, hB]
  · cases lf <;> by_cases hm : "podcast-covers" ∈ buckets <;>
      simp [checkBucketExists, hm]
  · cases lf with
    | true => simp [checkBucketExists] at hC
    | false =>
      by_cases hm : "podcast-covers" ∈ bucketsC
      · exact hm
      · simp [checkBucketExists, hm] at hC
  · simp [createPodcastSubmit]
  · simp [createPodcastSubmit]

/-- Witness for the amended C8 at concrete bucket lists. -/
theorem bucket_flows_amended_witness :
    "podcast-audio" ∈ createStorageBucket false []
    ∧ createStorageBucket false ["podcast-audio"] = ["podcast-audio"]
    ∧ (checkBucketExists false []).1 = []
    ∧ "podcast-covers" ∈ ["podcast-covers"]
    ∧ (createPodcastSubmit (some "u1") (some ⟨"c.png", "image/png", 10⟩)
        false false false "T" "D" "url").uploads = []
    ∧ (createPodcastSubmit (some "u1") (some ⟨"c.png", "image/png", 10⟩)
        false false false "T" "D" "url").inserted = none :=
  bucket_flows_amended [] ["podcast-audio"] ["podcast-covers"] false
    "u1" ⟨"c.png", "image/png", 10⟩ false false "T" "D" "url"
    (by decide) (by decide)

/-- C9: when the store call fails, the favorite and subscribe toggles
still flip the local flag while the join table is unchanged, so a
state whose flag agreed with the table ends in a state whose flag
disagrees with it — the error is never inspected and no rollback
happens. -/
theorem toggle_store_error_divergence (u e pid : String)
    (st : PlayerFavState) (ss : DetailSubState)
    (hf : st.isFavorite = true ↔ (u, e) ∈ st.favorites)
    (hs : ss.isSubscribed = true ↔ (u, pid) ∈ ss.subscriptions) :
    (handleFavorite (some u) (some e) true st).1.favorites = st.favorites
    ∧ (handleFavorite (some u) (some e) true st).1.isFavorite = !st.isFavorite
    ∧ ¬ ((handleFavorite (some u) (some e) true st).1.isFavorite = true
          ↔ (u, e) ∈ (handleFavorite (some u) (some e) true st).1.favorites)
    ∧ (handleSubscribe (some u) (some pid) true ss).1.subscriptions = ss.subscriptions
    ∧ (handleSubscribe (some u) (some pid) true ss).1.isSubscribed = !ss.isSubscribed
    ∧ ¬ ((handleSubscribe (some u) (some pid) true ss).1.isSubscribed = true
          ↔ (u, pid) ∈ (handleSubscribe (some u) (some pid) true ss).1.subscriptions) := by
  cases st with
  | mk favs flag =>
    cases ss with
    | mk subs sflag =>
      cases flag <;> cases sflag <;> simp_all [handleFavorite, handleSubscribe]

/-- Witness for C9 at the empty consistent state. -/
theorem toggle_store_error_divergence_witness :
    (handleFavorite (some "u1") (some "e1") true ⟨∅, false⟩).1.favorites
        = (∅ : Finset (String × String))
    ∧ (handleFavorite (some "u1") (some "e1") true ⟨∅, false⟩).1.isFavorite = !false
    ∧ ¬ ((handleFavorite (some "u1") (some "e1") true ⟨∅, false⟩).1.isFavorite = true
          ↔ ("u1", "e1") ∈ (handleFavorite (some "u1") (some "e1") true
              ⟨∅, false⟩).1.favorites)
    ∧ (handleSubscribe (some "u1") (some "p1") true ⟨∅, false⟩).1.subscriptions
        = (∅ : Finset (String × String))
    ∧ (handleSubscribe (some "u1") (some "p1") true ⟨∅, false⟩).1.isSubscribed = !false
    ∧ ¬ ((handleSubscribe (some "u1") (some "p1") true ⟨∅, false⟩).1.isSubscribed = true
          ↔ ("u1", "p1") ∈ (handleSubscribe (some "u1") (some "p1") true
              ⟨∅, false⟩).1.subscriptions) :=
  toggle_store_error_divergence "u1" "e1" "p1" ⟨∅, false⟩ ⟨∅, false⟩
    (by simp) (by simp)

end Podcast
